import Mathlib

/-!
Verification development for the swarm-mind coordination and decision engine.

The TypeScript sources are shallowly embedded: numbers become `Rat` (the
idealised real-number reading of JS floating point), JS `Set<string>` becomes
an insertion-ordered duplicate-free `List String`, and every source of
nondeterminism or I/O (`Math.random()`, `uuid()`, `Date.now()`, the `gh`-CLI
discovery wrappers, the SHA-256 `hash`, and the static English fallback text
pools) is passed in explicitly as an oracle argument, so that every
definition is a pure computable function of its inputs.
-/

/-- Action kinds, mirroring the `type` tags of the `AgentAction` union in `types.ts`. -/
inductive ActionKind where
  | study_repo
  | fix_issue
  | write_code
  | refactor
  | document
  | share_technique
  | contribute_pr
  | explore_topic
deriving DecidableEq, Repr

/-- Risk levels of `DecisionCost.riskLevel`. -/
inductive RiskLevel where
  | low
  | medium
  | high
deriving DecidableEq, Repr

/-- Decision lifecycle states of `AgentDecision.status`. -/
inductive DecisionStatus where
  | pending
  | executing
  | completed
  | failed
deriving DecidableEq, Repr

/-- Artifact kinds of `Artifact.type`. -/
inductive ArtifactKind where
  | code_change
  | pr_url
  | analysis
  | technique
deriving DecidableEq, Repr

/-- Engineering pheromone tags (`EngineeringPheromone.pheromoneType`). -/
inductive PheromoneKind where
  | knowledge
  | code
  | pr
  | technique
deriving DecidableEq, Repr

/-- The `AgentAction` discriminated union from `types.ts`; each variant carries
exactly the fields of the source interface (optional fields become `Option`). -/
inductive AgentAction where
  | study_repo (owner repo : String) (topic : Option String)
  | fix_issue (owner repo : String) (issueNumber : Nat)
  | write_code (description : String) (targetRepo : Option String)
  | refactor (owner repo target : String)
  | document (owner repo target : String)
  | share_technique (technique : String) (sourceRepo : Option String)
  | contribute_pr (owner repo description : String)
  | explore_topic (topic : String)
deriving DecidableEq, Repr

/-- The `type` tag of an action (JS `action.type`). -/
def AgentAction.type : AgentAction → ActionKind
  | .study_repo .. => .study_repo
  | .fix_issue .. => .fix_issue
  | .write_code .. => .write_code
  | .refactor .. => .refactor
  | .document .. => .document
  | .share_technique .. => .share_technique
  | .contribute_pr .. => .contribute_pr
  | .explore_topic .. => .explore_topic

/-- The JS `"owner" in action && "repo" in action` test: the variants that
carry literal `owner`/`repo` fields, with those fields. -/
def AgentAction.ownerRepo : AgentAction → Option (String × String)
  | .study_repo o r _ => some (o, r)
  | .fix_issue o r _ => some (o, r)
  | .refactor o r _ => some (o, r)
  | .document o r _ => some (o, r)
  | .contribute_pr o r _ => some (o, r)
  | .write_code _ _ => none
  | .share_technique _ _ => none
  | .explore_topic _ => none

/-- `Pheromone` from `types.ts`. -/
structure Pheromone where
  id : String
  agentId : String
  content : String
  domain : String
  confidence : Rat
  strength : Rat
  connections : List String
  timestamp : Nat
  attestation : String
deriving DecidableEq, Repr

/-- `PheromoneChannel` from `types.ts`. -/
structure PheromoneChannel where
  pheromones : List Pheromone
  density : Rat
  criticalThreshold : Rat
  phaseTransitionOccurred : Bool
  transitionStep : Option Nat
deriving DecidableEq, Repr

/-- `AgentPersonality` from `types.ts` (four traits, each documented 0-1). -/
structure AgentPersonality where
  curiosity : Rat
  diligence : Rat
  boldness : Rat
  sociability : Rat
deriving DecidableEq, Repr

/-- `AgentThought` from `types.ts`. -/
structure AgentThought where
  id : String
  agentId : String
  trigger : String
  observation : String
  reasoning : String
  conclusion : String
  suggestedActions : List String
  confidence : Rat
  timestamp : Nat
deriving DecidableEq, Repr

/-- `DecisionCost` from `types.ts`. -/
structure DecisionCost where
  estimatedTokens : Rat
  estimatedTimeMs : Rat
  riskLevel : RiskLevel
deriving DecidableEq, Repr

/-- `Artifact` from `types.ts`. -/
structure Artifact where
  type : ArtifactKind
  content : String
  filePath : Option String
  prUrl : Option String
deriving DecidableEq, Repr

/-- `DecisionResult` from `types.ts`. -/
structure DecisionResult where
  success : Bool
  summary : String
  artifacts : List Artifact
  tokensUsed : Rat
deriving DecidableEq, Repr

/-- `AgentDecision` from `types.ts`. -/
structure AgentDecision where
  id : String
  agentId : String
  action : AgentAction
  priority : Rat
  cost : DecisionCost
  status : DecisionStatus
  result : Option DecisionResult
  createdAt : Nat
  completedAt : Option Nat
deriving DecidableEq, Repr

/-- `GitHubRepo` from `types.ts`. -/
structure GitHubRepo where
  owner : String
  repo : String
  description : String
  language : String
  stars : Nat
  topics : List String
  relevanceScore : Rat
deriving DecidableEq, Repr

/-- `GitHubIssue` from `types.ts`. -/
structure GitHubIssue where
  owner : String
  repo : String
  number : Nat
  title : String
  body : String
  labels : List String
  difficulty : String
  relevanceScore : Rat
deriving DecidableEq, Repr

/-- `AutonomousAgentState` from `types.ts` (the base `AgentState` fields are
inlined).  The JS `Set<string>` for `absorbed` is modelled as an
insertion-ordered list without duplicates; `size` is its length. -/
structure AutonomousAgentState where
  id : String
  name : String
  posX : Rat
  posY : Rat
  velDx : Rat
  velDy : Rat
  knowledge : List Pheromone
  absorbed : List String
  explorationTarget : String
  energy : Rat
  synchronized : Bool
  syncedWith : List String
  stepCount : Nat
  discoveries : Nat
  contributionsToCollective : Nat
  thoughts : List AgentThought
  decisions : List AgentDecision
  currentDecision : Option AgentDecision
  reposStudied : List String
  prsCreated : List String
  tokensUsed : Rat
  tokenBudget : Rat
  specialization : String
  personality : AgentPersonality
  currentAction : String
deriving DecidableEq, Repr

/-- `EngineeringPheromone` from `types.ts` (extends `Pheromone`). -/
structure EngineeringPheromone extends Pheromone where
  pheromoneType : PheromoneKind
  artifacts : List Artifact
  githubRefs : List String
  codeSnippets : List String
deriving DecidableEq, Repr

/-- `CollaborativeProject` status values. -/
inductive ProjectStatus where
  | proposed
  | active
  | completed
deriving DecidableEq, Repr

/-- `CollaborativeProject` from `types.ts`. -/
structure CollaborativeProject where
  id : String
  title : String
  description : String
  participants : List String
  repos : List String
  status : ProjectStatus
  createdAt : Nat
deriving DecidableEq, Repr

/-- JS `Set.add` on the list model: append only if not already present. -/
def setAdd (l : List String) (x : String) : List String :=
  if l.contains x then l else l ++ [x]

/-! String helpers.  JS string methods and the three regular expressions of
`parseSuggestedAction` are implemented structurally over `List Char` so that
every concrete evaluation reduces in the kernel. -/

/-- Whether `needle` is a leading segment of `hay` (character-exact). -/
def listLeads : List Char → List Char → Bool
  | [], _ => true
  | _ :: _, [] => false
  | a :: as, b :: bs => a = b && listLeads as bs

/-- Whether `needle` occurs contiguously somewhere in `hay` (JS `String.includes`). -/
def listHasSub (needle : List Char) : List Char → Bool
  | [] => needle.isEmpty
  | c :: rest => listLeads needle (c :: rest) || listHasSub needle rest

/-- JS `hay.includes(needle)`. -/
def strIncludes (hay needle : String) : Bool :=
  listHasSub needle.data hay.data

/-- JS `s.startsWith(p)`. -/
def strStarts (s p : String) : Bool :=
  listLeads p.data s.data

/-- JS `String.toLowerCase` (ASCII, which is all the vocabulary uses). -/
def strLower (s : String) : String :=
  ⟨s.data.map Char.toLower⟩

/-- Numeric value of a run of decimal digits (JS `parseInt` on the capture of `/#(\d+)/`). -/
def digitsToNat (ds : List Char) : Nat :=
  ds.foldl (fun n c => n * 10 + (c.toNat - '0'.toNat)) 0

/-- The regex `/#(\d+)/`: first `#` followed by at least one digit; returns the
numeric value of the maximal digit run after it. -/
def matchHashNumber : List Char → Option Nat
  | [] => none
  | c :: rest =>
    if c = '#' then
      let ds := rest.takeWhile Char.isDigit
      if ds.isEmpty then matchHashNumber rest else some (digitsToNat ds)
    else matchHashNumber rest

/-- Character class `[a-zA-Z0-9_-]` (the owner part of the repo regex). -/
def isOwnerChar (c : Char) : Bool :=
  c.isAlphanum || c = '_' || c = '-'

/-- Character class `[a-zA-Z0-9_.-]` (the repo part of the repo regex). -/
def isRepoChar (c : Char) : Bool :=
  isOwnerChar c || c = '.'

/-- The regex `/([a-zA-Z0-9_-]+)\/([a-zA-Z0-9_.-]+)/` (leftmost match, greedy
captures): scan for the first `/` that has an owner-class character directly
before it and a repo-class character directly after it; the owner capture is
the maximal owner-class run ending at that `/`, the repo capture the maximal
repo-class run after it.  `pre` holds the already-scanned characters reversed. -/
def scanOwnerRepo (pre : List Char) : List Char → Option (String × String)
  | [] => none
  | c :: rest =>
    if c = '/' then
      match rest with
      | [] => none
      | d :: _ =>
        if (pre.headD ' ' |> isOwnerChar) && isRepoChar d then
          some (⟨(pre.takeWhile isOwnerChar).reverse⟩, ⟨rest.takeWhile isRepoChar⟩)
        else scanOwnerRepo (c :: pre) rest
    else scanOwnerRepo (c :: pre) rest

/-- First owner/repo match of the repo regex in `s`. -/
def matchOwnerRepo (s : String) : Option (String × String) :=
  scanOwnerRepo [] s.data

/-- JS `s.replace(/^tag:?\s*/i, "")`: strip a case-insensitive leading `tag`,
an optional colon, and following whitespace; otherwise return `s` unchanged. -/
def stripTag (tag s : String) : String :=
  let cs := s.data
  let n := tag.data.length
  if (cs.take n).map Char.toLower = tag.data then
    let rest := cs.drop n
    let rest := match rest with
      | ':' :: r => r
      | r => r
    ⟨rest.dropWhile Char.isWhitespace⟩
  else s

/-! The decision engine (`decider.ts`). -/

/-- `ACTION_PRIORITIES`: base priorities by action type. -/
def ACTION_PRIORITIES : ActionKind → Rat
  | .share_technique => 0.9
  | .study_repo => 0.85
  | .explore_topic => 0.75
  | .document => 0.6
  | .write_code => 0.4
  | .refactor => 0.3
  | .fix_issue => 0.05
  | .contribute_pr => 0.05

/-- `TOKEN_ESTIMATES`: token cost estimates by action type. -/
def TOKEN_ESTIMATES : ActionKind → Rat
  | .explore_topic => 800
  | .study_repo => 3000
  | .fix_issue => 8000
  | .write_code => 10000
  | .refactor => 7000
  | .document => 4000
  | .share_technique => 1500
  | .contribute_pr => 12000

/-- `TIME_ESTIMATES`: wall-clock estimates by action type. -/
def TIME_ESTIMATES : ActionKind → Rat
  | .explore_topic => 5000
  | .study_repo => 15000
  | .fix_issue => 45000
  | .write_code => 60000
  | .refactor => 40000
  | .document => 20000
  | .share_technique => 8000
  | .contribute_pr => 90000

/-- `estimateCost` from `decider.ts`.  The JS `|| 5000` / `|| 30000` defaults
are unreachable because the lookup tables are total over the closed kind set. -/
def estimateCost (action : AgentAction) : DecisionCost :=
  let estimatedTokens := TOKEN_ESTIMATES action.type
  let estimatedTimeMs := TIME_ESTIMATES action.type
  let r1 : RiskLevel :=
    if [ActionKind.contribute_pr, .write_code, .fix_issue].contains action.type
      then .medium else .low
  let riskLevel : RiskLevel :=
    if action.type = .contribute_pr then .high else r1
  { estimatedTokens := estimatedTokens, estimatedTimeMs := estimatedTimeMs,
    riskLevel := riskLevel }

/-- `parseSuggestedAction` from `decider.ts`: pattern-match a free-text
suggestion into a structured action.  Branches appear in source order; note
that the first branch returns `fix_issue` actions, and that the later
"contribute/pr/fix redirect to study_repo" branch can therefore only fire for
suggestions that do not start with `fix_issue` and do not contain `fix issue`. -/
def parseSuggestedAction (suggestion : String) (repos : List GitHubRepo)
    (issues : List GitHubIssue) : Option AgentAction :=
  let lower := strLower suggestion
  if strStarts lower "fix_issue" || strIncludes lower "fix issue" then
    match matchHashNumber suggestion.data with
    | some issueNum =>
      if issues.isEmpty then
        none
      else
        match issues.find? (fun i => i.number = issueNum) with
        | some issue => some (.fix_issue issue.owner issue.repo issue.number)
        | none =>
          match issues with
          | issue :: _ => some (.fix_issue issue.owner issue.repo issue.number)
          | [] => none
    | none =>
      match issues with
      | issue :: _ => some (.fix_issue issue.owner issue.repo issue.number)
      | [] => none
  else if strStarts lower "study" || strIncludes lower "study_repo" then
    match matchOwnerRepo suggestion with
    | some (o, r) => some (.study_repo o r none)
    | none =>
      match repos with
      | r :: _ => some (.study_repo r.owner r.repo none)
      | [] => none
  else if strStarts lower "share_technique" || strIncludes lower "share" then
    let desc := stripTag "share_technique" suggestion
    some (.share_technique (if desc = "" then "engineering insight" else desc) none)
  else if strStarts lower "explore_topic" || strIncludes lower "explore" then
    let topic := stripTag "explore_topic" suggestion
    some (.explore_topic (if topic = "" then "distributed systems" else topic))
  else if strIncludes lower "contribute" || strIncludes lower "pr" ||
      strIncludes lower "fix_issue" || strIncludes lower "fix issue" then
    match matchOwnerRepo suggestion with
    | some (o, r) =>
      match repos.find? (fun q => q.owner = o && q.repo = r) with
      | some known => some (.study_repo known.owner known.repo none)
      | none =>
        match repos with
        | q :: _ => some (.study_repo q.owner q.repo none)
        | [] => none
    | none =>
      match repos with
      | q :: _ => some (.study_repo q.owner q.repo none)
      | [] => none
  else if strIncludes lower "refactor" then
    match matchOwnerRepo suggestion with
    | some (o, r) => some (.refactor o r suggestion)
    | none => none
  else if strIncludes lower "document" then
    match matchOwnerRepo suggestion with
    | some (o, r) => some (.document o r suggestion)
    | none => none
  else none

/-- The four candidate sources of `generateCandidateDecisions`, in push order,
as the list of actions that survive the per-source budget filter
(`cost.estimatedTokens` must not exceed the remaining budget). -/
def candidateActions (state : AutonomousAgentState) (channel : PheromoneChannel)
    (repos : List GitHubRepo) (issues : List GitHubIssue)
    (thoughts : List AgentThought) : List AgentAction :=
  let budgetRemaining := state.tokenBudget - state.tokensUsed
  -- From thoughts (last 5) — turn suggested actions into decisions
  let fromThoughts :=
    ((thoughts.drop (thoughts.length - 5)).flatMap
      (fun t => t.suggestedActions.filterMap
        (fun s => parseSuggestedAction s repos issues))).filter
      (fun a => (estimateCost a).estimatedTokens ≤ budgetRemaining)
  -- From repos (first 3, not yet studied) — study opportunities
  let fromRepos :=
    (((repos.take 3).filter
      (fun r => !state.reposStudied.contains (r.owner ++ "/" ++ r.repo))).map
      (fun r => AgentAction.study_repo r.owner r.repo none)).filter
      (fun a => (estimateCost a).estimatedTokens ≤ budgetRemaining)
  -- From pheromones — share technique if we have cross-domain knowledge
  let fromShare :=
    if channel.pheromones.length > 5 && state.personality.sociability > 0.5 then
      let a := AgentAction.share_technique
        ("Cross-domain synthesis from " ++ state.specialization) none
      if (estimateCost a).estimatedTokens ≤ budgetRemaining then [a] else []
    else []
  -- Always offer explore_topic as a fallback (still budget filtered)
  let fallback :=
    let a := AgentAction.explore_topic state.specialization
    if (estimateCost a).estimatedTokens ≤ budgetRemaining then [a] else []
  fromThoughts ++ fromRepos ++ fromShare ++ fallback

/-- `scoreDecision` from `decider.ts`: the deterministic six-signal weighted
sum.  Pure function of the decision, the agent state and the channel. -/
def scoreDecision (decision : AgentDecision) (state : AutonomousAgentState)
    (channel : PheromoneChannel) : Rat :=
  let action := decision.action
  let personality := state.personality
  -- Base priority by action type (0.20 weight)
  let basePriority := ACTION_PRIORITIES action.type
  let priorityWeight := basePriority * 0.20
  -- Cost efficiency — prefer cheaper actions when budget is low (0.25 weight)
  let budgetRemaining := state.tokenBudget - state.tokensUsed
  let budgetRatio := budgetRemaining / state.tokenBudget
  let costRatio := decision.cost.estimatedTokens / budgetRemaining
  let costEfficiency := max 0 (1 - costRatio) * 0.25
  -- Staleness bonus — action types absent from the last 10 decisions (0.15)
  let recentDecisions := state.decisions.drop (state.decisions.length - 10)
  let recentTypes := recentDecisions.map (fun d => d.action.type)
  let stalenessBonus : Rat := if recentTypes.contains action.type then 0 else 0.15
  -- Risk penalty — penalize risky actions when budget is low (0.20 weight)
  let riskMultiplier : Rat :=
    match decision.cost.riskLevel with
    | .low => 0
    | .medium => 0.1
    | .high => 0.2
  let riskPenalty := -(riskMultiplier * (1 - budgetRatio)) * 0.20
  -- Swarm alignment — post-transition, prefer engineering (0.10 weight)
  let swarmAlignment : Rat :=
    if channel.phaseTransitionOccurred && !(action.type = .explore_topic)
      then 0.10 else 0
  -- Personal fit — personality match (0.10 weight)
  let personalFit : Rat :=
    if action.type = .study_repo || action.type = .explore_topic then
      personality.curiosity * 0.10
    else if action.type = .fix_issue || action.type = .contribute_pr then
      personality.boldness * 0.10
    else if action.type = .share_technique then
      personality.sociability * 0.10
    else if action.type = .refactor || action.type = .document then
      personality.diligence * 0.10
    else 0
  priorityWeight + costEfficiency + stalenessBonus + riskPenalty +
    swarmAlignment + personalFit

/-- Descending-priority comparison used to model the JS stable
`sort((a, b) => b.priority - a.priority)`. -/
def byPriorityDesc (a b : AgentDecision) : Bool :=
  b.priority ≤ a.priority

/-- `generateCandidateDecisions` from `decider.ts`: build the pending
candidates from the four filtered sources, score each with `scoreDecision`,
and stable-sort by descending priority.  `uuidGen` supplies the `uuid()` for
the n-th created candidate and `now` the shared `Date.now()` timestamp. -/
def generateCandidateDecisions (state : AutonomousAgentState)
    (channel : PheromoneChannel) (repos : List GitHubRepo)
    (issues : List GitHubIssue) (thoughts : List AgentThought)
    (uuidGen : Nat → String) (now : Nat) : List AgentDecision :=
  let actions := candidateActions state channel repos issues thoughts
  let candidates := actions.enum.map (fun p =>
    { id := uuidGen p.1
      agentId := state.id
      action := p.2
      priority := 0  -- Will be scored
      cost := estimateCost p.2
      status := .pending
      result := none
      createdAt := now
      completedAt := none : AgentDecision })
  let scored := candidates.map (fun c =>
    { c with priority := scoreDecision c state channel })
  scored.mergeSort byPriorityDesc

/-- The softmax branch of `selectDecision` (`temperature > 0`): weights
`exp((priority - maxPriority)/temperature)`, one weighted random draw.
`expFn` abstracts `Math.exp` (transcendental) and `roll01` the `Math.random()`
draw in `[0,1)`. -/
def softmaxSelect (candidates : List AgentDecision) (temperature : Rat)
    (expFn : Rat → Rat) (roll01 : Rat) : Option AgentDecision :=
  let maxPriority := ((candidates.map (fun c => c.priority)).max?).getD 0
  let weights := candidates.map (fun c =>
    expFn ((c.priority - maxPriority) / temperature))
  let totalWeight := weights.foldl (· + ·) 0
  let roll := roll01 * totalWeight
  let rec draw : List (AgentDecision × Rat) → Rat → Option AgentDecision
    | [], _ => none
    | (c, w) :: rest, r => if r - w ≤ 0 then some c else draw rest (r - w)
  match draw (candidates.zip weights) roll with
  | some c => some c
  | none => candidates.head?

/-- `selectDecision` from `decider.ts`: `none` on an empty pool, the first
candidate (greedy) at `temperature = 0`, otherwise the softmax draw. -/
def selectDecision (candidates : List AgentDecision) (temperature : Rat)
    (expFn : Rat → Rat) (roll01 : Rat) : Option AgentDecision :=
  if candidates.length = 0 then none
  else if temperature = 0 then candidates.head?
  else softmaxSelect candidates temperature expFn roll01

/-- `shouldSwitch` from `decider.ts`.  `roll` is the single `Math.random()`
draw consumed by whichever probabilistic branch fires; the source tests
`lastResult?.success` and `lastResult && !lastResult.success` before the
no-current-decision and budget-exhaustion checks. -/
def shouldSwitch (state : AutonomousAgentState)
    (lastResult : Option DecisionResult) (roll : Rat) : Bool :=
  match lastResult with
  | some r =>
    -- If last action succeeded, slight chance to switch for variety;
    -- if it failed, higher chance to switch
    if r.success then decide (roll < 0.3) else decide (roll < 0.7)
  | none =>
    -- No current decision — time to pick one
    if state.currentDecision.isNone then true
    -- Budget exhausted
    else if state.tokenBudget ≤ state.tokensUsed then true
    else false

/-- Append `v` to the entry of key `k` of an insertion-ordered association
list, or append a fresh entry at the end — the JS `Map` get/push/set idiom of
`detectCollaborativeOpportunity`. -/
def assocAppend : List (String × List String) → String → String →
    List (String × List String)
  | [], k, v => [(k, [v])]
  | (k', vs) :: rest, k, v =>
    if k' = k then (k', vs ++ [v]) :: rest else (k', vs) :: assocAppend rest k v

/-- Loop body of the grouping pass of `detectCollaborativeOpportunity`: an
agent holding a `currentDecision` whose action carries owner/repo fields is
appended under its `owner/repo` key. -/
def groupStep (acc : List (String × List String))
    (agent : AutonomousAgentState) : List (String × List String) :=
  match agent.currentDecision with
  | none => acc
  | some d =>
    match d.action.ownerRepo with
    | some (o, r) => assocAppend acc (o ++ "/" ++ r) agent.id
    | none => acc

/-- The grouping pass of `detectCollaborativeOpportunity`: agents that hold a
`currentDecision` whose action carries owner/repo fields, grouped by
`owner/repo` in first-insertion order. -/
def groupAgentsByRepo (agents : List AutonomousAgentState) :
    List (String × List String) :=
  agents.foldl groupStep []

/-- Claim-side formulation: the repository key referenced by an agent's
current decision, when both are present. -/
def currentRepoKey (a : AutonomousAgentState) : Option String :=
  a.currentDecision.bind (fun d =>
    d.action.ownerRepo.map (fun p => p.1 ++ "/" ++ p.2))

/-- Claim-side formulation: the ids of exactly those agents whose current
decision references repository `r`, in population order. -/
def repoWorkers (agents : List AutonomousAgentState) (r : String) : List String :=
  (agents.filter (fun a => currentRepoKey a = some r)).map (fun a => a.id)

/-- Lookup of a key's id list in the insertion-ordered association list. -/
def lookupIds (m : List (String × List String)) (k : String) : List String :=
  ((m.find? (fun e => e.1 = k)).map (fun e => e.2)).getD []

/-- First-occurrence-preserving deduplication (the JS `Set` iteration order of
the specialization set). -/
def dedupKeepFirst (l : List String) : List String :=
  l.foldl (fun acc s => if acc.contains s then acc else acc ++ [s]) []

/-- `detectCollaborativeOpportunity` from `decider.ts`: first trigger is a
repository referenced by ≥2 agents holding a current decision; second trigger
is ≥3 synchronized agents spanning ≥2 specializations.  `newId` models
`uuid()` and `now` models `Date.now()`. -/
def detectCollaborativeOpportunity (agents : List AutonomousAgentState)
    (_channel : PheromoneChannel) (_memories : List Pheromone)
    (newId : String) (now : Nat) : Option CollaborativeProject :=
  let repoAgents := groupAgentsByRepo agents
  match repoAgents.find? (fun e => 2 ≤ e.2.length) with
  | some (repo, agentIds) =>
    some { id := newId
           title := "Collaborative work on " ++ repo
           description := toString agentIds.length ++
             " agents are independently working on " ++ repo ++
             ". Coordination could prevent conflicts."
           participants := agentIds
           repos := [repo]
           status := .proposed
           createdAt := now }
  | none =>
    let syncedAgents := agents.filter (fun a => a.synchronized)
    if 3 ≤ syncedAgents.length then
      let specializations := dedupKeepFirst (syncedAgents.map (fun a => a.specialization))
      if 2 ≤ specializations.length then
        some { id := newId
               title := "Cross-domain collaboration: " ++
                 String.intercalate " + " (specializations.take 2)
               description := toString syncedAgents.length ++
                 " synced agents with complementary specializations could tackle a complex cross-domain project."
               participants := syncedAgents.map (fun a => a.id)
               repos := []
               status := .proposed
               createdAt := now }
      else none
    else none

/-! The per-agent state machine (`agent.ts`, class `SwarmAgent`).  Methods
that mutate `this.state` become functions returning the updated state. -/

/-- `checkSync` from `agent.ts`: an unsynchronized agent becomes synchronized
(and its energy is set to 1.0) exactly when channel density has reached the
critical threshold, it has absorbed at least 3 distinct pheromones, and its
energy exceeds 0.5. -/
def checkSync (state : AutonomousAgentState) (channel : PheromoneChannel) :
    AutonomousAgentState :=
  if state.synchronized then state
  else if channel.criticalThreshold ≤ channel.density ∧
      3 ≤ state.absorbed.length ∧ (0.5 : Rat) < state.energy then
    { state with synchronized := true, energy := 1.0 }
  else state

/-- One iteration of the `absorbPheromones` loop on a single channel
pheromone: skip own or already-absorbed pheromones; otherwise absorb with the
supplied random draw (`roll < strength * 0.6`, gated by `strength > 0.2`).
Returns the updated agent state, the (possibly strength-boosted) pheromone as
it remains in the channel, and whether it was absorbed.  JS pushes the mutated
object into the returned array, so an absorbed entry carries the boosted
strength. -/
def absorbStep (state : AutonomousAgentState) (p : Pheromone) (roll : Rat) :
    AutonomousAgentState × Pheromone × Bool :=
  if p.agentId = state.id then (state, p, false)
  else if state.absorbed.contains p.id then (state, p, false)
  else if (0.2 : Rat) < p.strength ∧ roll < p.strength * 0.6 then
    let p' := { p with strength := min 1.0 (p.strength + 0.1) }
    ({ state with
        absorbed := setAdd state.absorbed p.id
        energy := min 1.0 (state.energy + 0.05) }, p', true)
  else (state, p, false)

/-- The `absorbPheromones` loop over the channel's pheromone list.  `rolls`
supplies the `Math.random()` draw for the `k`-th pheromone.  Returns the final
agent state, the channel pheromones after in-place strength boosts, and the
list of absorbed pheromones. -/
def absorbAux (state : AutonomousAgentState) (rolls : Nat → Rat) (k : Nat) :
    List Pheromone → AutonomousAgentState × List Pheromone × List Pheromone
  | [] => (state, [], [])
  | p :: rest =>
    let step := absorbStep state p (rolls k)
    let restRes := absorbAux step.1 rolls (k + 1) rest
    (restRes.1, step.2.1 :: restRes.2.1,
      (if step.2.2 then [step.2.1] else []) ++ restRes.2.2)

/-- `absorbPheromones` from `agent.ts`. -/
def absorbPheromones (state : AutonomousAgentState)
    (channel : PheromoneChannel) (rolls : Nat → Rat) :
    AutonomousAgentState × List Pheromone × List Pheromone :=
  absorbAux state rolls 0 channel.pheromones

/-- `createEngineeringPheromone` from `agent.ts`: wrap a successful decision
result into an engineering pheromone; confidence is the decision's priority,
strength is `0.6 + priority * 0.3` (neither is clamped).  `newId` models
`uuid()`, `now` models `Date.now()`, `hashFn` the SHA-256 attestation. -/
def createEngineeringPheromone (state : AutonomousAgentState)
    (decision : AgentDecision) (result : DecisionResult) (newId : String)
    (now : Nat) (hashFn : String → String) :
    AutonomousAgentState × EngineeringPheromone :=
  let hasCode := result.artifacts.any (fun a => a.type = .code_change)
  let hasPR := result.artifacts.any (fun a => a.type = .pr_url)
  let pheromoneType : PheromoneKind :=
    if hasPR then .pr
    else if hasCode then .code
    else if result.artifacts.any (fun a => a.type = .technique) then .technique
    else .knowledge
  let githubRefs : List String :=
    match decision.action.ownerRepo with
    | some (o, r) => [o ++ "/" ++ r]
    | none => []
  let pheromone : EngineeringPheromone :=
    { id := newId
      agentId := state.id
      content := result.summary
      domain := state.explorationTarget
      confidence := decision.priority
      strength := 0.6 + decision.priority * 0.3
      connections := []
      timestamp := now
      attestation := hashFn (result.summary ++ state.id ++ toString now)
      pheromoneType := pheromoneType
      artifacts := result.artifacts
      githubRefs := githubRefs
      codeSnippets := ((result.artifacts.filter
        (fun a => a.type = .code_change)).map (fun a => a.content.take 200)) }
  -- JS pushes the engineering pheromone into `knowledge : Pheromone[]`; the
  -- list model stores its base-pheromone part
  ({ state with
      knowledge := state.knowledge ++ [pheromone.toPheromone]
      discoveries := state.discoveries + 1 }, pheromone)

/-- Oracle inputs of one `explore` step: the `Math.random()` draws, the
`discoverRepos` results for the query actually issued, the env-configured
topic pick, and the `uuid()`/`Date.now()`/`hash` effects.  `insightText` and
`discoveryText` stand for the draw from the static English fallback pools
(`fallbackInsight`/`fallbackDiscovery`), whose chosen sentence only ever flows
into the pheromone's `content` field. -/
structure ExploreEnv where
  discoveryRoll : Rat
  branchRoll : Rat
  sourceIdx : Nat
  discover : String → List GitHubRepo
  topic : String
  discoverIndep : String → List GitHubRepo
  indepRepoIdx : Nat
  confRoll : Rat
  confRoll2 : Rat
  insightText : String
  discoveryText : String
  newId : String
  now : Nat
  hashFn : String → String

/-- Fallback pheromone used only to keep list indexing total; unreachable
because every indexed access is guarded by a non-emptiness test. -/
def dummyPheromone : Pheromone :=
  { id := "", agentId := "", content := "", domain := "", confidence := 0,
    strength := 0, connections := [], timestamp := 0, attestation := "" }

/-- `explore` from `agent.ts`: probabilistic GitHub discovery emitting a
knowledge pheromone.  Returns the updated agent state, the updated
`discoveredRepos` field of the class, and the emitted pheromone (if any). -/
def explore (state : AutonomousAgentState) (discoveredRepos : List GitHubRepo)
    (absorbed : List Pheromone) (env : ExploreEnv) :
    AutonomousAgentState × List GitHubRepo × Option Pheromone :=
  let state := { state with currentAction := "exploring github" }
  let discoveryChance : Rat := if state.synchronized then 0.7 else 0.4
  if discoveryChance < env.discoveryRoll then (state, discoveredRepos, none)
  else
    if absorbed.length > 0 ∧ env.branchRoll < 0.6 then
      -- CROSS-POLLINATION: search GitHub for repos related to an absorbed pheromone
      let source := absorbed.getD (env.sourceIdx % absorbed.length) dummyPheromone
      let connections := [source.id]
      let confidence := min 1.0 (source.confidence + 0.1)
      let domain := source.domain
      -- JS splits on whitespace runs; the length > 4 filter discards the empty
      -- pieces that distinguish `String.split` from splitting on runs
      let keywords := ((source.content.split Char.isWhitespace).filter
        (fun w => 4 < w.length)).take 3
      let joined := String.intercalate " " keywords
      let searchTerm := if joined = "" then state.explorationTarget else joined
      let repos := env.discover searchTerm
      let contentAndRepos :=
        match repos with
        | repo :: _ =>
          ("github:" ++ repo.owner ++ "/" ++ repo.repo ++ " — " ++ repo.description,
            if discoveredRepos.any (fun r => r.owner = repo.owner && r.repo = repo.repo)
              then discoveredRepos else discoveredRepos ++ [repo])
        | [] => (env.insightText, discoveredRepos)
      let content := contentAndRepos.1
      let discoveredRepos := contentAndRepos.2
      let state :=
        if (0.6 : Rat) < source.strength then
          { state with explorationTarget := source.domain }
        else state
      let pheromone : Pheromone :=
        { id := env.newId
          agentId := state.id
          content := content
          domain := domain
          confidence := confidence
          strength := 0.5 + confidence * 0.3
          connections := connections
          timestamp := env.now
          attestation := env.hashFn (content ++ state.id ++ toString env.now) }
      ({ state with
          knowledge := state.knowledge ++ [pheromone]
          discoveries := state.discoveries + 1 }, discoveredRepos, some pheromone)
    else
      -- INDEPENDENT DISCOVERY via GitHub topics
      let repos := env.discoverIndep env.topic
      let confidence0 : Rat := 0.4 + env.confRoll * 0.4
      let indepResult :=
        match repos with
        | _ :: _ =>
          let repo := repos.getD (env.indepRepoIdx % repos.length)
            { owner := "", repo := "", description := "", language := "",
              stars := 0, topics := [], relevanceScore := 0 }
          ("github:" ++ repo.owner ++ "/" ++ repo.repo ++ " (" ++
              toString repo.stars ++ "★ " ++ repo.language ++ ") — " ++
              repo.description,
            confidence0,
            if discoveredRepos.any (fun q => q.owner = repo.owner && q.repo = repo.repo)
              then discoveredRepos else discoveredRepos ++ [repo])
        | [] => (env.discoveryText, 0.3 + env.confRoll2 * 0.4, discoveredRepos)
      let content := indepResult.1
      let confidence := indepResult.2.1
      let discoveredRepos := indepResult.2.2
      let pheromone : Pheromone :=
        { id := env.newId
          agentId := state.id
          content := content
          domain := state.explorationTarget
          confidence := confidence
          strength := 0.5 + confidence * 0.3
          connections := []
          timestamp := env.now
          attestation := env.hashFn (content ++ state.id ++ toString env.now) }
      ({ state with
          knowledge := state.knowledge ++ [pheromone]
          discoveries := state.discoveries + 1 }, discoveredRepos, some pheromone)

/-! Claim-side formulations.  The six scoring signals are re-stated here in
the vocabulary of the specification, to be compared with the monolithic
`scoreDecision` transliterated from source. -/

/-- Spec signal 1: base priority by action kind, weight 0.20. -/
def sigBasePriority (decision : AgentDecision) : Rat :=
  ACTION_PRIORITIES decision.action.type * 0.20

/-- Spec signal 2: cost efficiency `max(0, 1 - estimatedTokens/remainingBudget)`, weight 0.25. -/
def sigCostEfficiency (decision : AgentDecision) (state : AutonomousAgentState) : Rat :=
  max 0 (1 - decision.cost.estimatedTokens / (state.tokenBudget - state.tokensUsed)) * 0.25

/-- Spec signal 3: flat 0.15 staleness bonus exactly when the action kind is
not among the agent's last 10 decisions. -/
def sigStalenessBonus (decision : AgentDecision) (state : AutonomousAgentState) : Rat :=
  if ((state.decisions.drop (state.decisions.length - 10)).map
      (fun d => d.action.type)).contains decision.action.type then 0 else 0.15

/-- Spec risk multiplier: 0 / 0.1 / 0.2 by risk level. -/
def sigRiskMultiplier : RiskLevel → Rat
  | .low => 0
  | .medium => 0.1
  | .high => 0.2

/-- Spec signal 4 (subtracted): `riskMultiplier × (1 − remainingBudget/tokenBudget) × 0.20`. -/
def sigRiskPenalty (decision : AgentDecision) (state : AutonomousAgentState) : Rat :=
  sigRiskMultiplier decision.cost.riskLevel *
    (1 - (state.tokenBudget - state.tokensUsed) / state.tokenBudget) * 0.20

/-- Spec signal 5: flat 0.10 swarm-alignment bonus exactly when the phase
transition occurred and the kind is not `explore_topic`. -/
def sigSwarmAlignment (decision : AgentDecision) (channel : PheromoneChannel) : Rat :=
  if channel.phaseTransitionOccurred ∧ decision.action.type ≠ .explore_topic
    then 0.10 else 0

/-- Spec signal 6: the kind-relevant personality trait (curiosity for
study/explore, boldness for fix/contribute, sociability for share, diligence
for refactor/document, none for write_code), weight 0.10. -/
def sigPersonalFit (decision : AgentDecision) (state : AutonomousAgentState) : Rat :=
  match decision.action.type with
  | .study_repo => state.personality.curiosity * 0.10
  | .explore_topic => state.personality.curiosity * 0.10
  | .fix_issue => state.personality.boldness * 0.10
  | .contribute_pr => state.personality.boldness * 0.10
  | .share_technique => state.personality.sociability * 0.10
  | .refactor => state.personality.diligence * 0.10
  | .document => state.personality.diligence * 0.10
  | .write_code => 0

/-! Concrete fixtures used by scenario conjuncts, witnesses and
counterexamples. -/

/-- A typical freshly constructed agent (Explorer preset, 50000 token budget). -/
def baseAgent : AutonomousAgentState :=
  { id := "agent-1"
    name := "Neuron-A"
    posX := 500, posY := 400, velDx := 0, velDy := 0
    knowledge := []
    absorbed := []
    explorationTarget := "distributed systems architecture"
    energy := 0.9
    synchronized := false
    syncedWith := []
    stepCount := 0
    discoveries := 0
    contributionsToCollective := 0
    thoughts := []
    decisions := []
    currentDecision := none
    reposStudied := []
    prsCreated := []
    tokensUsed := 0
    tokenBudget := 50000
    specialization := "Explorer"
    personality := { curiosity := 0.9, diligence := 0.4, boldness := 0.3, sociability := 0.6 }
    currentAction := "initializing" }

/-- A channel above its critical threshold, before the phase transition. -/
def baseChannel : PheromoneChannel :=
  { pheromones := []
    density := 0.8
    criticalThreshold := 0.6
    phaseTransitionOccurred := false
    transitionStep := none }

/-- A pending decision for `action` with the source cost estimate. -/
def mkDecision (action : AgentAction) (priority : Rat) : AgentDecision :=
  { id := "d-1"
    agentId := "agent-1"
    action := action
    priority := priority
    cost := estimateCost action
    status := .pending
    result := none
    createdAt := 0
    completedAt := none }

/-- Scenario agent for C3 with two absorbed pheromone ids and energy 0.9. -/
def c3AgentTwo : AutonomousAgentState :=
  { baseAgent with absorbed := ["p1", "p2"] }

/-- Scenario agent for C3 with three absorbed pheromone ids and energy 0.9. -/
def c3AgentThree : AutonomousAgentState :=
  { baseAgent with absorbed := ["p1", "p2", "p3"] }

/-- Low-priority decision listed first (for the C5 counterexample). -/
def c5Low : AgentDecision := mkDecision (.explore_topic "caches") 0.1

/-- High-priority decision listed second (for the C5 counterexample). -/
def c5High : AgentDecision := mkDecision (.study_repo "octo" "widget" none) 0.9

/-- Agent with no current decision and an exhausted budget (for C6). -/
def c6State : AutonomousAgentState :=
  { baseAgent with currentDecision := none, tokensUsed := 50000 }

/-- A successful last step result (for C6). -/
def c6Result : DecisionResult :=
  { success := true, summary := "ok", artifacts := [], tokensUsed := 100 }

/-- Pheromone already absorbed by the C9 witness agent. -/
def c9Pheromone : Pheromone :=
  { id := "ph-1", agentId := "agent-2", content := "skip lists", domain := "ds",
    confidence := 0.7, strength := 0.8, connections := [], timestamp := 0,
    attestation := "h" }

/-- Agent that has already absorbed `c9Pheromone` (for the C9 witness). -/
def c9State : AutonomousAgentState :=
  { baseAgent with absorbed := ["ph-1"], energy := 0.4 }

/-- Channel holding exactly `c9Pheromone` (for the C9 witness). -/
def c9Channel : PheromoneChannel :=
  { baseChannel with pheromones := [c9Pheromone] }

/-- Example decision used by the C4 witness. -/
def c4Decision : AgentDecision := mkDecision (.share_technique "dual encoding" none) 0

/-- The C2 scenario agent: `tokenBudget = 50000`, `tokensUsed = 49500`. -/
def c2State : AutonomousAgentState := { baseAgent with tokensUsed := 49500 }

/-- The C2 scenario repo (so a `study_repo` candidate with cost 3000 is also
on offer before filtering). -/
def c2Repo : GitHubRepo :=
  { owner := "octo", repo := "widget", description := "widgets", language := "ts",
    stars := 42, topics := [], relevanceScore := 0 }

/-- The pool generated for the C7 witness. -/
def c7Pool : List AgentDecision :=
  generateCandidateDecisions baseAgent baseChannel [] [] [] (fun _ => "") 0

/-- Placeholder decision for total `headD` access in the C7 witness. -/
def dummyDecision : AgentDecision := mkDecision (.explore_topic "unused") 0

/-- The open issue available to `parseSuggestedAction` in the C1 failing input. -/
def c1Issue : GitHubIssue :=
  { owner := "octo", repo := "widget", number := 1, title := "crash on load",
    body := "", labels := [], difficulty := "easy", relevanceScore := 0 }

/-- A thought whose suggestion expresses fix-issue intent (C1 failing input). -/
def c1Thought : AgentThought :=
  { id := "t1", agentId := "agent-1", trigger := "repo_analysis",
    observation := "", reasoning := "", conclusion := "",
    suggestedActions := ["fix issue"], confidence := 0.8, timestamp := 0 }

/-- The prior fix_issue decision (pending, priority 0) used to build the C8
counterexample state. -/
def c8Prior : AgentDecision := mkDecision (.fix_issue "octo" "widget" 1) 0

/-- Agent for the C8 counterexample: a large budget almost exhausted (8000 of
1000000 remaining, exactly the fix_issue cost, so its candidate passes the
budget filter), zero boldness, and a recent fix_issue decision (so no
staleness bonus). -/
def c8State : AutonomousAgentState :=
  { baseAgent with
      tokenBudget := 1000000
      tokensUsed := 992000
      personality := { curiosity := 0.5, diligence := 0.5, boldness := 0,
                       sociability := 0.5 }
      decisions := [c8Prior] }

/-- The C8 counterexample decision as the pipeline would score it: priority
set by `scoreDecision` on the pending candidate. -/
def c8Scored : AgentDecision :=
  { c8Prior with priority := scoreDecision c8Prior c8State baseChannel }

/-- A successful result carrying one analysis artifact (C8 counterexample). -/
def c8Result : DecisionResult :=
  { success := true, summary := "studied the issue", tokensUsed := 2000,
    artifacts := [{ type := .analysis, content := "notes", filePath := none,
                    prUrl := none }] }

/-- A well-scored decision for the C8 witness. -/
def c8Good : AgentDecision := mkDecision (.document "octo" "widget" "readme") 0.5

/-- Executing study_repo decision on octo/widget (C10 scenario). -/
def c10Decision : AgentDecision :=
  { mkDecision (.study_repo "octo" "widget" none) 0.5 with status := .executing }

/-- First scenario agent for C10. -/
def c10a1 : AutonomousAgentState :=
  { baseAgent with id := "a1", currentDecision := some c10Decision }

/-- Second scenario agent for C10. -/
def c10a2 : AutonomousAgentState :=
  { baseAgent with id := "a2", currentDecision := some c10Decision }

/-- Pending study_repo decision on octo/widget (C10 counterexample). -/
def c10Pending : AgentDecision := mkDecision (.study_repo "octo" "widget" none) 0.5

/-- First counterexample agent for C10 (decision pending, not executing). -/
def c10b1 : AutonomousAgentState :=
  { baseAgent with id := "b1", currentDecision := some c10Pending }

/-- Second counterexample agent for C10 (decision pending, not executing). -/
def c10b2 : AutonomousAgentState :=
  { baseAgent with id := "b2", currentDecision := some c10Pending }

/-- C3: `checkSync` flips an unsynchronized agent to synchronized exactly when
channel density has reached the critical threshold, at least 3 distinct
pheromones have been absorbed, and energy exceeds 0.5; on synchronizing the
energy is set to 1.0.  With `criticalThreshold = 0.6`, `density = 0.8` and
`energy = 0.9`, the agent with 2 absorbed pheromones stays unsynchronized and
the agent with 3 becomes synchronized with energy 1. -/
theorem checkSync_spec :
    (∀ (s : AutonomousAgentState) (c : PheromoneChannel),
      s.synchronized = false →
      (((checkSync s c).synchronized = true) ↔
        (c.criticalThreshold ≤ c.density ∧ 3 ≤ s.absorbed.length ∧
          (0.5 : Rat) < s.energy)) ∧
      ((checkSync s c).synchronized = true → (checkSync s c).energy = 1)) ∧
    (checkSync c3AgentTwo baseChannel).synchronized = false ∧
    (checkSync c3AgentThree baseChannel).synchronized = true ∧
    (checkSync c3AgentThree baseChannel).energy = 1 := by
  refine ⟨fun s c h => ?_, ?_, ?_, ?_⟩
  · by_cases hc : c.criticalThreshold ≤ c.density ∧ 3 ≤ s.absorbed.length ∧
        (0.5 : Rat) < s.energy
    · refine ⟨by simp [checkSync, h, hc], fun _ => ?_⟩
      simp only [checkSync, h, hc]
      norm_num
    · refine ⟨by simp [checkSync, h, hc], fun hsync => ?_⟩
      simp [checkSync, h, hc] at hsync
  · norm_num [checkSync, c3AgentTwo, baseAgent, baseChannel]
  · norm_num [checkSync, c3AgentThree, baseAgent, baseChannel]
  · norm_num [checkSync, c3AgentThree, baseAgent, baseChannel]

/-- Witness for C3: the general rule applied to the concrete three-pheromone
agent synchronizes it. -/
theorem checkSync_spec_witness :
    (checkSync c3AgentThree baseChannel).synchronized = true :=
  ((checkSync_spec.1 c3AgentThree baseChannel rfl).1).mpr
    ⟨by norm_num [baseChannel], by simp [c3AgentThree, baseAgent],
      by norm_num [c3AgentThree, baseAgent]⟩

/-- Counterexample to C5 as stated: on the unsorted pool `[c5Low, c5High]`,
`selectDecision` with temperature 0 returns the first candidate `c5Low`, whose
priority 0.1 is not maximal (`c5High` has 0.9). -/
theorem selectDecision_zero_first_not_max :
    selectDecision [c5Low, c5High] 0 (fun x => x) 0 = some c5Low ∧
    c5Low.priority < c5High.priority := by
  constructor
  · norm_num [selectDecision]
  · norm_num [c5Low, c5High, mkDecision]

/-- C5 (amended): `selectDecision` with temperature 0 returns the first
candidate of the pool; on a pool sorted by non-increasing priority — the order
`generateCandidateDecisions` produces — that first candidate has maximal
priority, and among equal-priority candidates it is the earliest. -/
theorem selectDecision_zero_greedy :
    ∀ (c : AgentDecision) (cs : List AgentDecision) (expFn : Rat → Rat)
      (roll : Rat),
      (c :: cs).Pairwise (fun a b => b.priority ≤ a.priority) →
      selectDecision (c :: cs) 0 expFn roll = some c ∧
      ∀ d ∈ c :: cs, d.priority ≤ c.priority := by
  intro c cs expFn roll hsorted
  constructor
  · norm_num [selectDecision]
  · intro d hd
    rcases List.mem_cons.mp hd with rfl | hmem
    · exact le_refl _
    · exact (List.pairwise_cons.mp hsorted).1 d hmem

/-- Witness for C5 (amended): on the sorted two-element pool the greedy
selection returns the maximal-priority head. -/
theorem selectDecision_zero_greedy_witness :
    selectDecision [c5High, c5Low] 0 (fun x => x) 0 = some c5High :=
  (selectDecision_zero_greedy c5High [c5Low] (fun x => x) 0
    (by norm_num [List.pairwise_cons, c5Low, c5High, mkDecision])).1

/-- Counterexample to C6 as stated: this agent has no current decision and an
exhausted budget, yet with a successful last result and draw 0.5 the function
returns false — the success branch fires first, so the "unconditionally true"
cases are not checked when a last result is present. -/
theorem shouldSwitch_not_unconditional :
    c6State.currentDecision = none ∧
    c6State.tokenBudget ≤ c6State.tokensUsed ∧
    shouldSwitch c6State (some c6Result) 0.5 = false := by
  refine ⟨rfl, by norm_num [c6State, baseAgent], ?_⟩
  norm_num [shouldSwitch, c6Result]

/-- C6 (amended): when a last result is present, `shouldSwitch` returns true
exactly when the draw is below 0.3 (success) or 0.7 (failure), entirely
ignoring the agent state — including the no-current-decision and
budget-exhausted cases; only when no last result is supplied does it
unconditionally return true for a missing current decision or an exhausted
budget (`tokensUsed ≥ tokenBudget`), and false otherwise. -/
theorem shouldSwitch_spec :
    ∀ (s s' : AutonomousAgentState) (r : DecisionResult) (roll : Rat),
      (shouldSwitch s (some r) roll =
        if r.success then decide (roll < 0.3) else decide (roll < 0.7)) ∧
      shouldSwitch s (some r) roll = shouldSwitch s' (some r) roll ∧
      (shouldSwitch s none roll =
        (s.currentDecision.isNone || decide (s.tokenBudget ≤ s.tokensUsed))) := by
  intro s s' r roll
  refine ⟨by simp [shouldSwitch], by simp [shouldSwitch], ?_⟩
  by_cases hcd : s.currentDecision.isNone <;>
    by_cases hb : s.tokenBudget ≤ s.tokensUsed <;>
      simp [shouldSwitch, hcd, hb]

/-- C9: absorption is idempotent per pheromone id — a pass of
`absorbPheromones` over a channel holding a pheromone whose id the agent has
already absorbed returns the agent state unchanged (same absorbed set, same
energy), leaves the pheromone's strength unchanged, and absorbs nothing,
whatever the random draws. -/
theorem absorbPheromones_idempotent :
    ∀ (s : AutonomousAgentState) (p : Pheromone) (c : PheromoneChannel)
      (rolls : Nat → Rat),
      s.absorbed.contains p.id = true →
      c.pheromones = [p] →
      absorbPheromones s c rolls = (s, [p], []) := by
  intro s p c rolls hmem hc
  unfold absorbPheromones
  rw [hc]
  have hm : p.id ∈ s.absorbed := by simpa using hmem
  have hstep : absorbStep s p (rolls 0) = (s, p, false) := by
    by_cases hown : p.agentId = s.id
    · simp [absorbStep, hown]
    · simp [absorbStep, hown, hm]
  simp [absorbAux, hstep]

/-- Witness for C9: a second pass over the already-absorbed `c9Pheromone`
changes nothing. -/
theorem absorbPheromones_idempotent_witness :
    absorbPheromones c9State c9Channel (fun _ => 0) = (c9State, [c9Pheromone], []) :=
  absorbPheromones_idempotent c9State c9Pheromone c9Channel (fun _ => 0)
    (by decide) rfl

set_option maxHeartbeats 1000000

/-- Unconditional decomposition of the monolithic source `scoreDecision` into
the six specification signals (shared helper). -/
theorem scoreDecision_eq_sigs (d : AgentDecision) (s : AutonomousAgentState)
    (c : PheromoneChannel) :
    scoreDecision d s c =
      sigBasePriority d + sigCostEfficiency d s + sigStalenessBonus d s -
        sigRiskPenalty d s + sigSwarmAlignment d c + sigPersonalFit d s := by
  unfold scoreDecision sigBasePriority sigCostEfficiency sigStalenessBonus
    sigRiskPenalty sigRiskMultiplier sigSwarmAlignment sigPersonalFit
  cases htype : d.action.type <;> simp [htype] <;> ring

/-- C4: `scoreDecision` equals the weighted sum of the six specification
signals: base priority × 0.20, plus cost efficiency × 0.25, plus the 0.15
staleness bonus, minus the risk penalty `riskMultiplier × (1 − budgetRatio) ×
0.20`, plus the 0.10 swarm-alignment bonus, plus the kind-relevant personality
trait × 0.10.  Determinism is immediate in the embedding: `scoreDecision` is a
pure function of the decision, agent state and channel, with no oracle
argument (randomness enters only `selectDecision`, `shouldSwitch`, movement
and absorption).  The budget hypotheses restrict the statement to states where
the rational-arithmetic model agrees with the JS floating-point evaluation
(no division by a zero or negative remaining budget). -/
theorem scoreDecision_weighted_sum :
    ∀ (d : AgentDecision) (s : AutonomousAgentState) (c : PheromoneChannel),
      0 < s.tokenBudget → s.tokensUsed < s.tokenBudget →
      scoreDecision d s c =
        sigBasePriority d + sigCostEfficiency d s + sigStalenessBonus d s -
          sigRiskPenalty d s + sigSwarmAlignment d c + sigPersonalFit d s :=
  fun d s c _ _ => scoreDecision_eq_sigs d s c

/-- Witness for C4: the decomposition instantiated on a concrete decision,
agent and channel with a positive remaining budget. -/
theorem scoreDecision_weighted_sum_witness :
    (0 : Rat) < baseAgent.tokenBudget ∧
    baseAgent.tokensUsed < baseAgent.tokenBudget ∧
    scoreDecision c4Decision baseAgent baseChannel =
      sigBasePriority c4Decision + sigCostEfficiency c4Decision baseAgent +
        sigStalenessBonus c4Decision baseAgent -
        sigRiskPenalty c4Decision baseAgent +
        sigSwarmAlignment c4Decision baseChannel +
        sigPersonalFit c4Decision baseAgent :=
  ⟨by norm_num [baseAgent], by norm_num [baseAgent],
    scoreDecision_weighted_sum c4Decision baseAgent baseChannel
      (by norm_num [baseAgent]) (by norm_num [baseAgent])⟩

/-- The explore_topic fallback survives the budget filter whenever at least
its 800-token estimate remains. -/
theorem mem_candidateActions_fallback (s : AutonomousAgentState)
    (ch : PheromoneChannel) (repos : List GitHubRepo)
    (issues : List GitHubIssue) (thoughts : List AgentThought)
    (h : (800 : Rat) ≤ s.tokenBudget - s.tokensUsed) :
    AgentAction.explore_topic s.specialization ∈
      candidateActions s ch repos issues thoughts := by
  simp only [candidateActions]
  refine List.mem_append.mpr (Or.inr ?_)
  have hcost : (estimateCost (AgentAction.explore_topic s.specialization)).estimatedTokens
      ≤ s.tokenBudget - s.tokensUsed := by
    have : (estimateCost (AgentAction.explore_topic s.specialization)).estimatedTokens
        = 800 := rfl
    rw [this]
    exact h
  rw [if_pos hcost]
  exact List.mem_singleton_self _

/-- Every action in the candidate pool yields a decision in the generated,
scored and sorted output, carrying that action and its estimated cost. -/
theorem mem_generate_of_mem_actions (s : AutonomousAgentState)
    (ch : PheromoneChannel) (repos : List GitHubRepo)
    (issues : List GitHubIssue) (thoughts : List AgentThought)
    (uuidGen : Nat → String) (now : Nat) (a : AgentAction)
    (ha : a ∈ candidateActions s ch repos issues thoughts) :
    ∃ d ∈ generateCandidateDecisions s ch repos issues thoughts uuidGen now,
      d.action = a ∧ d.cost = estimateCost a := by
  obtain ⟨i, hi⟩ := List.get?_of_mem ha
  unfold generateCandidateDecisions
  refine ⟨_, List.mem_mergeSort.mpr (List.mem_map.mpr
    ⟨_, List.mem_map.mpr ⟨(i, a), List.mem_enum_iff_get?.mpr hi, rfl⟩, rfl⟩), rfl, rfl⟩

/-- Every action in the candidate pool passed its source's budget filter. -/
theorem candidateActions_cost_le (s : AutonomousAgentState)
    (ch : PheromoneChannel) (repos : List GitHubRepo)
    (issues : List GitHubIssue) (thoughts : List AgentThought) (a : AgentAction)
    (ha : a ∈ candidateActions s ch repos issues thoughts) :
    (estimateCost a).estimatedTokens ≤ s.tokenBudget - s.tokensUsed := by
  simp only [candidateActions] at ha
  rcases List.mem_append.mp ha with h1 | hD
  · rcases List.mem_append.mp h1 with h2 | hC
    · rcases List.mem_append.mp h2 with hA | hB
      · exact of_decide_eq_true (List.mem_filter.mp hA).2
      · exact of_decide_eq_true (List.mem_filter.mp hB).2
    · split_ifs at hC with hsoc hcost
      · rwa [List.mem_singleton.mp hC]
      · exact absurd hC (List.not_mem_nil a)
      · exact absurd hC (List.not_mem_nil a)
  · split_ifs at hD with hcost
    · rwa [List.mem_singleton.mp hD]
    · exact absurd hD (List.not_mem_nil a)

/-- C2 (amended): whenever the remaining budget covers the 800-token estimate
of the explore fallback, `generateCandidateDecisions` returns a non-empty pool
containing an `explore_topic` candidate on the agent's specialization.  (When
the remaining budget is positive but below 800, the fallback is also filtered
out and the pool can be empty — see the counterexample.) -/
theorem generate_explore_fallback :
    ∀ (s : AutonomousAgentState) (ch : PheromoneChannel)
      (repos : List GitHubRepo) (issues : List GitHubIssue)
      (thoughts : List AgentThought) (uuidGen : Nat → String) (now : Nat),
      (800 : Rat) ≤ s.tokenBudget - s.tokensUsed →
      (∃ d ∈ generateCandidateDecisions s ch repos issues thoughts uuidGen now,
        d.action = AgentAction.explore_topic s.specialization) ∧
      generateCandidateDecisions s ch repos issues thoughts uuidGen now ≠ [] := by
  intro s ch repos issues thoughts uuidGen now h
  obtain ⟨d, hd, hact, -⟩ := mem_generate_of_mem_actions s ch repos issues
    thoughts uuidGen now _ (mem_candidateActions_fallback s ch repos issues thoughts h)
  exact ⟨⟨d, hd, hact⟩, List.ne_nil_of_mem hd⟩

/-- Witness for C2 (amended): a fresh agent with the full 50000 budget gets a
non-empty candidate pool. -/
theorem generate_explore_fallback_witness :
    generateCandidateDecisions baseAgent baseChannel [] [] [] (fun _ => "") 0 ≠ [] :=
  (generate_explore_fallback baseAgent baseChannel [] [] [] (fun _ => "") 0
    (by norm_num [baseAgent])).2

/-- Counterexample to C2 as stated: with 500 tokens of budget remaining
(positive!) and the claimed candidate costs (`explore_topic` 800, `study_repo`
3000), the pool is empty — the explore fallback does not survive the budget
filter, so nothing is offered. -/
theorem generate_empty_with_positive_budget :
    (0 : Rat) < c2State.tokenBudget - c2State.tokensUsed ∧
    generateCandidateDecisions c2State baseChannel [c2Repo] [] [] (fun _ => "") 0
      = [] := by
  constructor
  · norm_num [c2State, baseAgent]
  · have hact : candidateActions c2State baseChannel [c2Repo] [] [] = [] := by
      unfold candidateActions
      norm_num [c2State, c2Repo, baseAgent, baseChannel, estimateCost,
        TOKEN_ESTIMATES, AgentAction.type, List.filter]
    unfold generateCandidateDecisions
    rw [hact]
    simp

/-- C7: every decision in the generated pool has an estimated token cost within
the agent's remaining budget at generation time — each of the four sources
applies the budget filter before pushing a candidate. -/
theorem generate_within_budget :
    ∀ (s : AutonomousAgentState) (ch : PheromoneChannel)
      (repos : List GitHubRepo) (issues : List GitHubIssue)
      (thoughts : List AgentThought) (uuidGen : Nat → String) (now : Nat)
      (d : AgentDecision),
      d ∈ generateCandidateDecisions s ch repos issues thoughts uuidGen now →
      d.cost.estimatedTokens ≤ s.tokenBudget - s.tokensUsed := by
  intro s ch repos issues thoughts uuidGen now d hd
  unfold generateCandidateDecisions at hd
  rw [List.mem_mergeSort] at hd
  obtain ⟨c, hc, rfl⟩ := List.mem_map.mp hd
  obtain ⟨⟨i, a⟩, hia, rfl⟩ := List.mem_map.mp hc
  exact candidateActions_cost_le s ch repos issues thoughts a
    (List.get?_mem (List.mem_enum_iff_get?.mp hia))

/-- Witness for C7: the first decision of a concretely generated pool is
within the remaining budget. -/
theorem generate_within_budget_witness :
    (c7Pool.headD dummyDecision).cost.estimatedTokens ≤
      baseAgent.tokenBudget - baseAgent.tokensUsed := by
  have hm := mem_candidateActions_fallback baseAgent baseChannel [] [] []
    (by norm_num [baseAgent])
  obtain ⟨d, hd, -, -⟩ := mem_generate_of_mem_actions baseAgent baseChannel
    [] [] [] (fun _ => "") 0 _ hm
  have hne : c7Pool ≠ [] := List.ne_nil_of_mem hd
  have hmem : c7Pool.headD dummyDecision ∈ c7Pool := by
    cases hp : c7Pool with
    | nil => exact absurd hp hne
    | cons x xs => simp [hp]
  exact generate_within_budget baseAgent baseChannel [] [] [] (fun _ => "") 0 _ hmem

/-- C1 (the code evaluated at the failing input): a thought suggesting
"fix issue", with one open issue available and ample budget, makes
`generateCandidateDecisions` offer a `fix_issue` decision.  The first branch
of `parseSuggestedAction` returns `fix_issue` actions, so the later
"redirect fix/contribute intents to study_repo" branch is unreachable for
them, contrary to the source's own out-of-scope comments and to the claim. -/
theorem generate_offers_fix_issue :
    AgentAction.fix_issue "octo" "widget" 1 ∈
      candidateActions baseAgent baseChannel [] [c1Issue] [c1Thought] ∧
    ∃ d ∈ generateCandidateDecisions baseAgent baseChannel [] [c1Issue]
        [c1Thought] (fun _ => "") 0,
      d.action = AgentAction.fix_issue "octo" "widget" 1 := by
  have hmem : AgentAction.fix_issue "octo" "widget" 1 ∈
      candidateActions baseAgent baseChannel [] [c1Issue] [c1Thought] := by
    simp only [candidateActions]
    refine List.mem_append.mpr (Or.inl (List.mem_append.mpr (Or.inl
      (List.mem_append.mpr (Or.inl ?_)))))
    refine List.mem_filter.mpr ⟨by decide, ?_⟩
    have hcost : (estimateCost (AgentAction.fix_issue "octo" "widget" 1)).estimatedTokens
        = 8000 := rfl
    exact decide_eq_true (by rw [hcost]; norm_num [baseAgent])
  obtain ⟨d, hd, hact, -⟩ := mem_generate_of_mem_actions baseAgent baseChannel
    [] [c1Issue] [c1Thought] (fun _ => "") 0 _ hmem
  exact ⟨hmem, d, hd, hact⟩

/-- Range of the base-priority signal over the closed kind set. -/
theorem sigBasePriority_range (d : AgentDecision) :
    (1/100 : Rat) ≤ sigBasePriority d ∧ sigBasePriority d ≤ 18/100 := by
  cases h : d.action.type <;>
    norm_num [sigBasePriority, ACTION_PRIORITIES, h]

/-- Range of the cost-efficiency signal (nonnegative cost, positive remaining
budget). -/
theorem sigCostEfficiency_range (d : AgentDecision) (s : AutonomousAgentState)
    (hT : 0 ≤ d.cost.estimatedTokens)
    (hrem : 0 < s.tokenBudget - s.tokensUsed) :
    0 ≤ sigCostEfficiency d s ∧ sigCostEfficiency d s ≤ 25/100 := by
  unfold sigCostEfficiency
  have hcr : 0 ≤ d.cost.estimatedTokens / (s.tokenBudget - s.tokensUsed) :=
    div_nonneg hT hrem.le
  have hm0 : (0 : Rat) ≤ max 0 (1 - d.cost.estimatedTokens / (s.tokenBudget - s.tokensUsed)) :=
    le_max_left _ _
  have hm1 : max 0 (1 - d.cost.estimatedTokens / (s.tokenBudget - s.tokensUsed)) ≤ 1 :=
    max_le (by norm_num) (by linarith)
  constructor <;> nlinarith

/-- Range of the staleness bonus. -/
theorem sigStalenessBonus_range (d : AgentDecision) (s : AutonomousAgentState) :
    0 ≤ sigStalenessBonus d s ∧ sigStalenessBonus d s ≤ 15/100 := by
  unfold sigStalenessBonus
  split_ifs <;> norm_num

/-- Range of the (subtracted) risk penalty when the budget ratio lies in `[0,1]`. -/
theorem sigRiskPenalty_range (d : AgentDecision) (s : AutonomousAgentState)
    (hq0 : 0 ≤ (s.tokenBudget - s.tokensUsed) / s.tokenBudget)
    (hq1 : (s.tokenBudget - s.tokensUsed) / s.tokenBudget ≤ 1) :
    0 ≤ sigRiskPenalty d s ∧ sigRiskPenalty d s ≤ 4/100 := by
  unfold sigRiskPenalty sigRiskMultiplier
  cases d.cost.riskLevel <;> constructor <;> simp <;> nlinarith

/-- Range of the swarm-alignment bonus. -/
theorem sigSwarmAlignment_range (d : AgentDecision) (c : PheromoneChannel) :
    0 ≤ sigSwarmAlignment d c ∧ sigSwarmAlignment d c ≤ 10/100 := by
  unfold sigSwarmAlignment
  split_ifs <;> norm_num

/-- Range of the personal-fit signal for trait values in `[0,1]`. -/
theorem sigPersonalFit_range (d : AgentDecision) (s : AutonomousAgentState)
    (hc0 : 0 ≤ s.personality.curiosity) (hc1 : s.personality.curiosity ≤ 1)
    (hd0 : 0 ≤ s.personality.diligence) (hd1 : s.personality.diligence ≤ 1)
    (hb0 : 0 ≤ s.personality.boldness) (hb1 : s.personality.boldness ≤ 1)
    (hs0 : 0 ≤ s.personality.sociability) (hs1 : s.personality.sociability ≤ 1) :
    0 ≤ sigPersonalFit d s ∧ sigPersonalFit d s ≤ 10/100 := by
  unfold sigPersonalFit
  cases d.action.type <;> constructor <;> simp <;> nlinarith

/-- Bounds on `scoreDecision` for personality traits in `[0,1]`, a positive
token budget, nonnegative spend strictly below the budget, and a nonnegative
cost estimate: the score always lies in `[-0.03, 0.78]` (shared helper). -/
theorem scoreDecision_range (d : AgentDecision) (s : AutonomousAgentState)
    (c : PheromoneChannel)
    (hc0 : 0 ≤ s.personality.curiosity) (hc1 : s.personality.curiosity ≤ 1)
    (hd0 : 0 ≤ s.personality.diligence) (hd1 : s.personality.diligence ≤ 1)
    (hb0 : 0 ≤ s.personality.boldness) (hb1 : s.personality.boldness ≤ 1)
    (hs0 : 0 ≤ s.personality.sociability) (hs1 : s.personality.sociability ≤ 1)
    (hB : 0 < s.tokenBudget) (hU : 0 ≤ s.tokensUsed)
    (hR : s.tokensUsed < s.tokenBudget) (hT : 0 ≤ d.cost.estimatedTokens) :
    -(3/100 : Rat) ≤ scoreDecision d s c ∧ scoreDecision d s c ≤ 78/100 := by
  have hrem : 0 < s.tokenBudget - s.tokensUsed := by linarith
  have hq0 : 0 ≤ (s.tokenBudget - s.tokensUsed) / s.tokenBudget :=
    div_nonneg hrem.le hB.le
  have hq1 : (s.tokenBudget - s.tokensUsed) / s.tokenBudget ≤ 1 := by
    rw [div_le_one hB]
    linarith
  obtain ⟨h1a, h1b⟩ := sigBasePriority_range d
  obtain ⟨h2a, h2b⟩ := sigCostEfficiency_range d s hT hrem
  obtain ⟨h3a, h3b⟩ := sigStalenessBonus_range d s
  obtain ⟨h4a, h4b⟩ := sigRiskPenalty_range d s hq0 hq1
  obtain ⟨h5a, h5b⟩ := sigSwarmAlignment_range d c
  obtain ⟨h6a, h6b⟩ := sigPersonalFit_range d s hc0 hc1 hd0 hd1 hb0 hb1 hs0 hs1
  rw [scoreDecision_eq_sigs]
  constructor <;> linarith

/-- Strength bounds survive one `absorbStep` (shared helper). -/
theorem absorbStep_strength (s : AutonomousAgentState) (p : Pheromone)
    (roll : Rat) (hp0 : 0 ≤ p.strength) (hp1 : p.strength ≤ 1) :
    0 ≤ (absorbStep s p roll).2.1.strength ∧
      (absorbStep s p roll).2.1.strength ≤ 1 := by
  unfold absorbStep
  split_ifs with h1 h2 h3
  · exact ⟨hp0, hp1⟩
  · exact ⟨hp0, hp1⟩
  · dsimp only
    have hmin : min (1.0 : Rat) (p.strength + 0.1) ≤ 1.0 := min_le_left _ _
    refine ⟨le_min (by norm_num) (by linarith), by linarith⟩
  · exact ⟨hp0, hp1⟩

/-- Strength bounds survive a whole absorption pass (shared helper). -/
theorem absorbAux_strength (rolls : Nat → Rat) :
    ∀ (ps : List Pheromone) (s : AutonomousAgentState) (k : Nat),
      (∀ p ∈ ps, 0 ≤ p.strength ∧ p.strength ≤ 1) →
      ∀ q ∈ (absorbAux s rolls k ps).2.1, 0 ≤ q.strength ∧ q.strength ≤ 1 := by
  intro ps
  induction ps with
  | nil =>
    intro s k _ q hq
    simp [absorbAux] at hq
  | cons p rest ih =>
    intro s k h q hq
    simp only [absorbAux] at hq
    rcases List.mem_cons.mp hq with rfl | hq'
    · exact absorbStep_strength s p (rolls k) (h p (List.mem_cons_self p rest)).1
        (h p (List.mem_cons_self p rest)).2
    · exact ih _ (k + 1) (fun x hx => h x (List.mem_cons_of_mem p hx)) q hq'

/-- Confidence and strength bounds for the pheromone emitted by `explore`
(shared helper): assuming the absorbed source pheromones carry confidences in
`[0,1]` and the confidence draws lie in `[0,1)`, any emitted pheromone has
confidence and strength in `[0,1]`. -/
theorem explore_pheromone_range (s : AutonomousAgentState)
    (dr : List GitHubRepo) (absorbed : List Pheromone) (env : ExploreEnv)
    (habs : ∀ p ∈ absorbed, 0 ≤ p.confidence ∧ p.confidence ≤ 1)
    (hr1 : 0 ≤ env.confRoll) (hr2 : env.confRoll < 1)
    (hr3 : 0 ≤ env.confRoll2) (hr4 : env.confRoll2 < 1) :
    ∀ ph, (explore s dr absorbed env).2.2 = some ph →
      (0 ≤ ph.confidence ∧ ph.confidence ≤ 1) ∧
      0 ≤ ph.strength ∧ ph.strength ≤ 1 := by
  have hsrc : 0 < absorbed.length →
      0 ≤ (absorbed.getD (env.sourceIdx % absorbed.length) dummyPheromone).confidence ∧
      (absorbed.getD (env.sourceIdx % absorbed.length) dummyPheromone).confidence ≤ 1 := by
    intro hlen
    have hidx : env.sourceIdx % absorbed.length < absorbed.length :=
      Nat.mod_lt _ hlen
    have hmem : absorbed.getD (env.sourceIdx % absorbed.length) dummyPheromone
        ∈ absorbed := by
      rw [List.getD_eq_getElem?_getD, List.getElem?_eq_getElem hidx]
      exact List.getElem_mem hidx
    exact habs _ hmem
  intro ph hph
  simp only [explore] at hph
  split at hph <;> split at hph
  case isTrue.isTrue => exact absurd hph (by simp)
  case isFalse.isTrue => exact absurd hph (by simp)
  all_goals
    (by_cases hbranch : absorbed.length > 0 ∧ env.branchRoll < 0.6
     · -- cross-pollination branch
       rw [if_pos hbranch] at hph
       obtain ⟨hc0, hc1⟩ := hsrc hbranch.1
       dsimp only at hph
       rw [Option.some.injEq] at hph
       subst hph
       dsimp only
       have hmin1 := min_le_left (1.0 : Rat)
         ((absorbed.getD (env.sourceIdx % absorbed.length) dummyPheromone).confidence + 0.1)
       have hmin0 : (0 : Rat) ≤ min (1.0 : Rat)
           ((absorbed.getD (env.sourceIdx % absorbed.length) dummyPheromone).confidence + 0.1) :=
         le_min (by norm_num) (by linarith)
       exact ⟨⟨hmin0, by linarith⟩, by linarith, by linarith⟩
     · -- independent-discovery branch
       rw [if_neg hbranch] at hph
       dsimp only at hph
       rw [Option.some.injEq] at hph
       subst hph
       dsimp only
       split
       · dsimp only
         exact ⟨⟨by linarith, by linarith⟩, by linarith, by linarith⟩
       · dsimp only
         exact ⟨⟨by linarith, by linarith⟩, by linarith, by linarith⟩)

/-- C8 (amended): the clamping invariant holds for `explore` emissions and for
the absorption strength boost, and the engineering pheromone's strength stays
in `[0,1]`; but the engineering pheromone's confidence is the decision's raw
priority (not clamped), which `scoreDecision` keeps in `[-0.03, 0.78]` — a
range that can dip below 0, so `confidence ∈ [0,1]` fails there (see the
counterexample).  Conjuncts: (1) a pheromone emitted by `explore` has
confidence and strength in `[0,1]` provided the absorbed sources are in range
and the confidence draws lie in `[0,1)`; (2) after `absorbPheromones`, all
channel pheromones still have strength in `[0,1]` if they did before; (3)
`scoreDecision` lies in `[-0.03, 0.78]` for personality traits in `[0,1]` and
a positive remaining budget; (4) an engineering pheromone's confidence equals
the decision's priority and its strength lies in `[0,1]` whenever that
priority is within the `scoreDecision` range. -/
theorem pheromone_range_invariant :
    (∀ (s : AutonomousAgentState) (dr : List GitHubRepo)
        (absorbed : List Pheromone) (env : ExploreEnv),
      (∀ p ∈ absorbed, 0 ≤ p.confidence ∧ p.confidence ≤ 1) →
      0 ≤ env.confRoll → env.confRoll < 1 →
      0 ≤ env.confRoll2 → env.confRoll2 < 1 →
      ∀ ph, (explore s dr absorbed env).2.2 = some ph →
        (0 ≤ ph.confidence ∧ ph.confidence ≤ 1) ∧
        0 ≤ ph.strength ∧ ph.strength ≤ 1) ∧
    (∀ (s : AutonomousAgentState) (c : PheromoneChannel) (rolls : Nat → Rat),
      (∀ p ∈ c.pheromones, 0 ≤ p.strength ∧ p.strength ≤ 1) →
      ∀ q ∈ (absorbPheromones s c rolls).2.1,
        0 ≤ q.strength ∧ q.strength ≤ 1) ∧
    (∀ (d : AgentDecision) (s : AutonomousAgentState) (c : PheromoneChannel),
      0 ≤ s.personality.curiosity → s.personality.curiosity ≤ 1 →
      0 ≤ s.personality.diligence → s.personality.diligence ≤ 1 →
      0 ≤ s.personality.boldness → s.personality.boldness ≤ 1 →
      0 ≤ s.personality.sociability → s.personality.sociability ≤ 1 →
      0 < s.tokenBudget → 0 ≤ s.tokensUsed → s.tokensUsed < s.tokenBudget →
      0 ≤ d.cost.estimatedTokens →
      -(3/100 : Rat) ≤ scoreDecision d s c ∧ scoreDecision d s c ≤ 78/100) ∧
    (∀ (s : AutonomousAgentState) (d : AgentDecision) (res : DecisionResult)
        (newId : String) (now : Nat) (hashFn : String → String),
      -(3/100 : Rat) ≤ d.priority → d.priority ≤ 78/100 →
      (createEngineeringPheromone s d res newId now hashFn).2.confidence
          = d.priority ∧
      0 ≤ (createEngineeringPheromone s d res newId now hashFn).2.strength ∧
      (createEngineeringPheromone s d res newId now hashFn).2.strength ≤ 1) := by
  refine ⟨explore_pheromone_range, ?_, ?_, ?_⟩
  · intro s c rolls h q hq
    exact absorbAux_strength rolls c.pheromones s 0 h q hq
  · intro d s c hc0 hc1 hd0 hd1 hb0 hb1 hs0 hs1 hB hU hR hT
    exact scoreDecision_range d s c hc0 hc1 hd0 hd1 hb0 hb1 hs0 hs1 hB hU hR hT
  · intro s d res newId now hashFn hp0 hp1
    refine ⟨rfl, ?_, ?_⟩
    · show (0 : Rat) ≤ 0.6 + d.priority * 0.3
      linarith
    · show (0.6 : Rat) + d.priority * 0.3 ≤ 1
      linarith

/-- Counterexample to C8 as stated: the engineering pheromone built from the
scored fix_issue decision has negative confidence (`-0.00984`), because
`createEngineeringPheromone` copies the unclamped priority into `confidence`.
The third conjunct checks that this decision's cost fits the remaining budget,
i.e. the candidate is one the generation filter would admit. -/
theorem engineering_confidence_below_zero :
    (createEngineeringPheromone c8State c8Scored c8Result "p1" 0
        (fun _ => "h")).2.confidence < 0 ∧
    c8Scored.priority = scoreDecision c8Prior c8State baseChannel ∧
    c8Scored.cost.estimatedTokens ≤ c8State.tokenBudget - c8State.tokensUsed := by
  have hcost : c8Scored.cost.estimatedTokens = 8000 := rfl
  refine ⟨?_, rfl, by rw [hcost]; norm_num [c8State, baseAgent]⟩
  have hconf : (createEngineeringPheromone c8State c8Scored c8Result "p1" 0
      (fun _ => "h")).2.confidence = scoreDecision c8Prior c8State baseChannel := rfl
  rw [hconf, scoreDecision_eq_sigs]
  have hrisk : c8Prior.cost.riskLevel = RiskLevel.medium := rfl
  have h1 : sigBasePriority c8Prior = 1/100 := by
    norm_num [sigBasePriority, ACTION_PRIORITIES, c8Prior, mkDecision,
      AgentAction.type]
  have h2 : sigCostEfficiency c8Prior c8State = 0 := by
    norm_num [sigCostEfficiency, c8Prior, mkDecision, estimateCost,
      TOKEN_ESTIMATES, AgentAction.type, c8State, baseAgent]
  have hcont : (((c8State.decisions.drop (c8State.decisions.length - 10)).map
      (fun d => d.action.type)).contains c8Prior.action.type) = true := by decide
  have h3 : sigStalenessBonus c8Prior c8State = 0 := by
    unfold sigStalenessBonus
    rw [if_pos hcont]
  have h4 : sigRiskPenalty c8Prior c8State = 62/3125 := by
    norm_num [sigRiskPenalty, sigRiskMultiplier, hrisk, c8State, baseAgent]
  have h5 : sigSwarmAlignment c8Prior baseChannel = 0 := by
    simp [sigSwarmAlignment, baseChannel]
  have h6 : sigPersonalFit c8Prior c8State = 0 := by
    norm_num [sigPersonalFit, AgentAction.type, c8Prior, mkDecision, c8State]
  rw [h1, h2, h3, h4, h5, h6]
  norm_num

/-- Witness for C8 (amended): the engineering-strength conjunct applied to a
decision with priority 0.5 gives a strength inside `[0,1]`. -/
theorem pheromone_range_invariant_witness :
    0 ≤ (createEngineeringPheromone baseAgent c8Good c8Result "p2" 0
        (fun _ => "h")).2.strength ∧
    (createEngineeringPheromone baseAgent c8Good c8Result "p2" 0
        (fun _ => "h")).2.strength ≤ 1 :=
  (pheromone_range_invariant.2.2.2 baseAgent c8Good c8Result "p2" 0
    (fun _ => "h") (by norm_num [c8Good, mkDecision])
    (by norm_num [c8Good, mkDecision])).2

/-- Lookup at the head key of an association list (shared helper). -/
theorem lookupIds_cons_hit (ke : String) (vs : List String)
    (rest : List (String × List String)) (kQ : String) (h : ke = kQ) :
    lookupIds ((ke, vs) :: rest) kQ = vs := by
  simp [lookupIds, List.find?_cons, h]

/-- Lookup skipping a non-matching head entry (shared helper). -/
theorem lookupIds_cons_miss (ke : String) (vs : List String)
    (rest : List (String × List String)) (kQ : String) (h : ¬ ke = kQ) :
    lookupIds ((ke, vs) :: rest) kQ = lookupIds rest kQ := by
  simp [lookupIds, List.find?_cons, h]

/-- Lookup in the empty association list (shared helper). -/
theorem lookupIds_nil (kQ : String) : lookupIds [] kQ = [] := rfl

/-- Effect of `assocAppend` on lookups (shared helper). -/
theorem lookupIds_assocAppend (m : List (String × List String))
    (kNew : String) (v : String) (kQ : String) :
    lookupIds (assocAppend m kNew v) kQ =
      if kQ = kNew then lookupIds m kQ ++ [v] else lookupIds m kQ := by
  induction m with
  | nil =>
    by_cases h : kQ = kNew
    · subst h
      rw [if_pos rfl]
      show lookupIds [(kQ, [v])] kQ = lookupIds [] kQ ++ [v]
      rw [lookupIds_cons_hit _ _ _ _ rfl, lookupIds_nil]
      rfl
    · rw [if_neg h]
      show lookupIds [(kNew, [v])] kQ = lookupIds [] kQ
      rw [lookupIds_cons_miss _ _ _ _ (fun hh => h hh.symm), lookupIds_nil]
  | cons e rest ih =>
    obtain ⟨ke, vs⟩ := e
    rw [show assocAppend ((ke, vs) :: rest) kNew v =
      if ke = kNew then (ke, vs ++ [v]) :: rest
      else (ke, vs) :: assocAppend rest kNew v from rfl]
    by_cases h1 : ke = kNew
    · rw [if_pos h1]
      by_cases h2 : ke = kQ
      · rw [lookupIds_cons_hit _ _ _ _ h2, if_pos (h2.symm.trans h1),
          lookupIds_cons_hit _ _ _ _ h2]
      · rw [lookupIds_cons_miss _ _ _ _ h2,
          if_neg (fun hh : kQ = kNew => h2 (h1.trans hh.symm)),
          lookupIds_cons_miss _ _ _ _ h2]
    · rw [if_neg h1]
      by_cases h2 : ke = kQ
      · rw [lookupIds_cons_hit _ _ _ _ h2,
          if_neg (fun hh : kQ = kNew => h1 (h2.trans hh)),
          lookupIds_cons_hit _ _ _ _ h2]
      · rw [lookupIds_cons_miss _ _ _ _ h2, ih,
          lookupIds_cons_miss _ _ _ _ h2]

/-- Effect of one `groupStep` on lookups (shared helper). -/
theorem lookupIds_groupStep (acc : List (String × List String))
    (a : AutonomousAgentState) (k : String) :
    lookupIds (groupStep acc a) k =
      if currentRepoKey a = some k then lookupIds acc k ++ [a.id]
      else lookupIds acc k := by
  unfold groupStep currentRepoKey
  split
  · rename_i heq
    simp [heq]
  · rename_i d heq
    split
    · rename_i o r heq2
      simp only [heq, heq2, Option.some_bind]
      have hcond : (Option.map (fun p : String × String => p.1 ++ "/" ++ p.2)
          (some (o, r)) = some k) ↔ (k = o ++ "/" ++ r) := by
        simp [eq_comm]
      rw [lookupIds_assocAppend]
      by_cases hk : k = o ++ "/" ++ r
      · rw [if_pos hk, if_pos (hcond.mpr hk)]
      · rw [if_neg hk, if_neg (fun hh => hk (hcond.mp hh))]
    · rename_i heq2
      simp [heq, heq2]

/-- Lookups over the grouping fold accumulate the matching workers (shared
helper). -/
theorem lookupIds_foldl (agents : List AutonomousAgentState) :
    ∀ (acc : List (String × List String)) (k : String),
      lookupIds (agents.foldl groupStep acc) k =
        lookupIds acc k ++ repoWorkers agents k := by
  induction agents with
  | nil =>
    intro acc k
    simp [repoWorkers]
  | cons a rest ih =>
    intro acc k
    rw [List.foldl_cons, ih, lookupIds_groupStep]
    unfold repoWorkers
    by_cases h : currentRepoKey a = some k
    · rw [if_pos h]
      simp [List.filter_cons, h]
    · rw [if_neg h]
      simp [List.filter_cons, h]

/-- The grouping pass groups exactly the agents whose current decision
references the key (shared helper). -/
theorem groupAgentsByRepo_lookup (agents : List AutonomousAgentState)
    (k : String) :
    lookupIds (groupAgentsByRepo agents) k = repoWorkers agents k := by
  unfold groupAgentsByRepo
  rw [lookupIds_foldl agents [] k, lookupIds_nil]
  rfl

/-- Keys reachable after an `assocAppend` (shared helper). -/
theorem mem_keys_assocAppend (m : List (String × List String))
    (kNew v x : String)
    (hx : x ∈ (assocAppend m kNew v).map Prod.fst) :
    x ∈ m.map Prod.fst ∨ x = kNew := by
  induction m with
  | nil =>
    simp [assocAppend] at hx
    exact Or.inr hx
  | cons e rest ih =>
    obtain ⟨ke, vs⟩ := e
    rw [show assocAppend ((ke, vs) :: rest) kNew v =
      if ke = kNew then (ke, vs ++ [v]) :: rest
      else (ke, vs) :: assocAppend rest kNew v from rfl] at hx
    by_cases h1 : ke = kNew
    · rw [if_pos h1] at hx
      simp only [List.map_cons, List.mem_cons] at hx ⊢
      rcases hx with rfl | hx
      · exact Or.inl (Or.inl rfl)
      · exact Or.inl (Or.inr hx)
    · rw [if_neg h1] at hx
      simp only [List.map_cons, List.mem_cons] at hx ⊢
      rcases hx with rfl | hx
      · exact Or.inl (Or.inl rfl)
      · rcases ih hx with hm | he
        · exact Or.inl (Or.inr hm)
        · exact Or.inr he

/-- `assocAppend` preserves distinctness of keys (shared helper). -/
theorem nodup_keys_assocAppend (m : List (String × List String))
    (kNew v : String) (hnd : (m.map Prod.fst).Nodup) :
    ((assocAppend m kNew v).map Prod.fst).Nodup := by
  induction m with
  | nil =>
    simp [assocAppend]
  | cons e rest ih =>
    obtain ⟨ke, vs⟩ := e
    rw [show assocAppend ((ke, vs) :: rest) kNew v =
      if ke = kNew then (ke, vs ++ [v]) :: rest
      else (ke, vs) :: assocAppend rest kNew v from rfl]
    simp only [List.map_cons, List.nodup_cons] at hnd
    by_cases h1 : ke = kNew
    · rw [if_pos h1]
      simp only [List.map_cons, List.nodup_cons]
      exact hnd
    · rw [if_neg h1]
      simp only [List.map_cons, List.nodup_cons]
      refine ⟨?_, ih hnd.2⟩
      intro hmem
      rcases mem_keys_assocAppend rest kNew v ke hmem with hm | he
      · exact hnd.1 hm
      · exact h1 he

/-- One `groupStep` preserves key distinctness (shared helper). -/
theorem nodup_keys_groupStep (acc : List (String × List String))
    (a : AutonomousAgentState) (hacc : (acc.map Prod.fst).Nodup) :
    ((groupStep acc a).map Prod.fst).Nodup := by
  unfold groupStep
  split
  · exact hacc
  · split
    · exact nodup_keys_assocAppend acc _ _ hacc
    · exact hacc

/-- The grouping pass never repeats a key (shared helper). -/
theorem groupAgentsByRepo_nodup_keys (agents : List AutonomousAgentState) :
    ((groupAgentsByRepo agents).map Prod.fst).Nodup := by
  unfold groupAgentsByRepo
  have h : ∀ (acc : List (String × List String)),
      (acc.map Prod.fst).Nodup →
      ((agents.foldl groupStep acc).map Prod.fst).Nodup := by
    induction agents with
    | nil => intro acc hacc; simpa using hacc
    | cons a rest ih =>
      intro acc hacc
      rw [List.foldl_cons]
      exact ih _ (nodup_keys_groupStep acc a hacc)
  exact h [] (by simp)

/-- In a key-distinct association list, an entry's id list is its key's lookup
(shared helper). -/
theorem lookupIds_of_mem_nodup (m : List (String × List String))
    (e : String × List String) (hnd : (m.map Prod.fst).Nodup) (he : e ∈ m) :
    lookupIds m e.1 = e.2 := by
  induction m with
  | nil => cases he
  | cons f rest ih =>
    obtain ⟨fk, fv⟩ := f
    simp only [List.map_cons, List.nodup_cons] at hnd
    rcases List.mem_cons.mp he with rfl | hmem
    · exact lookupIds_cons_hit _ _ _ _ rfl
    · have hne : ¬ fk = e.1 := by
        intro hEq
        exact hnd.1 (hEq ▸ List.mem_map_of_mem Prod.fst hmem)
      rw [lookupIds_cons_miss _ _ _ _ hne]
      exact ih hnd.2 hmem

/-- C10 (amended): the first trigger of `detectCollaborativeOpportunity`
groups exactly the agents holding a current decision (of any status) by the
owner/repo their action references — conjunct 1 identifies the grouping with
the order-preserving filter `repoWorkers`; conjunct 2 shows that whenever some
repository is referenced by at least two such agents, the function returns a
proposed project whose repos list is exactly one such repository and whose
participants are exactly those agents' ids; conjunct 3 is the claim's
scenario: two agents both executing a study_repo decision on octo/widget
yield a proposed project naming both ids and that repository. -/
theorem detectCollaborativeOpportunity_spec :
    (∀ (agents : List AutonomousAgentState) (r : String),
      lookupIds (groupAgentsByRepo agents) r = repoWorkers agents r) ∧
    (∀ (agents : List AutonomousAgentState) (ch : PheromoneChannel)
        (mems : List Pheromone) (newId : String) (now : Nat),
      (∃ r, 2 ≤ (repoWorkers agents r).length) →
      ∃ proj, detectCollaborativeOpportunity agents ch mems newId now
          = some proj ∧
        proj.status = .proposed ∧
        ∃ r, proj.repos = [r] ∧ proj.participants = repoWorkers agents r ∧
          2 ≤ (repoWorkers agents r).length) ∧
    ((detectCollaborativeOpportunity [c10a1, c10a2] baseChannel [] "proj" 0).map
        (fun p => (p.participants, p.repos, p.status))
      = some (["a1", "a2"], ["octo/widget"], ProjectStatus.proposed)) := by
  refine ⟨groupAgentsByRepo_lookup, ?_, by decide⟩
  intro agents ch mems newId now ⟨r, hr⟩
  cases hf : (groupAgentsByRepo agents).find? (fun e => 2 ≤ e.2.length) with
  | none =>
    exfalso
    have hall := List.find?_eq_none.mp hf
    cases hf2 : (groupAgentsByRepo agents).find? (fun e => e.1 = r) with
    | none =>
      have : lookupIds (groupAgentsByRepo agents) r = [] := by
        unfold lookupIds
        rw [hf2]
        rfl
      rw [groupAgentsByRepo_lookup agents r] at this
      rw [this] at hr
      simp at hr
    | some e0 =>
      have he0 : e0 ∈ groupAgentsByRepo agents := List.mem_of_find?_eq_some hf2
      have hde : lookupIds (groupAgentsByRepo agents) r = e0.2 := by
        unfold lookupIds
        rw [hf2]
        rfl
      have hlen : 2 ≤ e0.2.length := by
        rw [← hde, groupAgentsByRepo_lookup agents r]
        exact hr
      exact hall e0 he0 (decide_eq_true hlen)
  | some e =>
    have hmem := List.mem_of_find?_eq_some hf
    have hlen : 2 ≤ e.2.length := by
      have h := List.find?_some hf
      simpa using h
    have hkey : lookupIds (groupAgentsByRepo agents) e.1 = e.2 :=
      lookupIds_of_mem_nodup (groupAgentsByRepo agents) e
        (groupAgentsByRepo_nodup_keys agents) hmem
    have hworkers : repoWorkers agents e.1 = e.2 := by
      rw [← groupAgentsByRepo_lookup agents e.1]
      exact hkey
    have hdet : detectCollaborativeOpportunity agents ch mems newId now =
        some { id := newId
               title := "Collaborative work on " ++ e.1
               description := toString e.2.length ++
                 " agents are independently working on " ++ e.1 ++
                 ". Coordination could prevent conflicts."
               participants := e.2
               repos := [e.1]
               status := .proposed
               createdAt := now } := by
      unfold detectCollaborativeOpportunity
      dsimp only
      rw [hf]
    refine ⟨_, hdet, rfl, e.1, rfl, ?_, ?_⟩
    · exact hworkers.symm
    · rw [hworkers]
      exact hlen

/-- Counterexample to C10 as stated: neither agent holds an *executing*
decision (both current decisions are still pending) and neither is
synchronized, so under the claim the executing-decision grouping is empty and
no project should arise from it — yet the function proposes a project naming
both agents, because the code only tests `currentDecision` for null, never its
status. -/
theorem detectCollaborativeOpportunity_counts_pending :
    c10b1.currentDecision.map (fun d => d.status) = some DecisionStatus.pending ∧
    c10b2.currentDecision.map (fun d => d.status) = some DecisionStatus.pending ∧
    c10b1.synchronized = false ∧ c10b2.synchronized = false ∧
    ((detectCollaborativeOpportunity [c10b1, c10b2] baseChannel [] "proj" 0).map
        (fun p => (p.participants, p.repos, p.status))
      = some (["b1", "b2"], ["octo/widget"], ProjectStatus.proposed)) := by
  refine ⟨rfl, rfl, rfl, rfl, by decide⟩

/-- Witness for C10 (amended): the overlap trigger applied to the concrete
two-agent scenario produces a proposal. -/
theorem detectCollaborativeOpportunity_spec_witness :
    (detectCollaborativeOpportunity [c10a1, c10a2] baseChannel [] "proj" 0).isSome
      = true := by
  obtain ⟨proj, hdet, -⟩ :=
    detectCollaborativeOpportunity_spec.2.1 [c10a1, c10a2] baseChannel []
      "proj" 0 ⟨"octo/widget", by decide⟩
  rw [hdet]
  rfl
